import Mathlib

/-!
Verification of the Document_Classifier orchestration core.

Shallow embedding of the repository's decision algorithms:
- `src/config/settings.py` (DOMAIN_KEYWORDS catalog),
- `src/agents/text_classification.py` (keyword fallback classifier),
- `src/agents/vision_analysis.py` (vision response parser),
- `src/agents/domain_router.py` (reconciler: quick agreement and weighted fallback),
- `src/agents/base.py` (execute envelope),
- `src/workflow/graph.py` (workflow graph, superstep execution, result assembly).

Python floats are modelled as rationals, Python strings as Lean strings,
Python dict-shaped records as structures, and fallible external calls
(LLM / vision backends) as explicit `Except` / `Option` oracles.
-/

namespace DocumentClassifier

/-- Python `str.lower()` restricted to the ASCII range used by the catalog. -/
def lowerStr (s : String) : String := String.mk (s.toList.map Char.toLower)

/-- Python `needle in haystack` on strings: substring containment. -/
def isSubstringOf (needle haystack : String) : Bool :=
  (List.range (haystack.toList.length + 1)).any fun i =>
    List.isPrefixOf needle.toList (haystack.toList.drop i)

/-- Number of (possibly overlapping) start positions at which `needle`
occurs in `haystack`.  Used only to state the spec's occurrence-count
reading of the keyword score, for comparison with the code. -/
def countOccurrencesOf (needle haystack : String) : Nat :=
  (List.range (haystack.toList.length + 1)).countP fun i =>
    List.isPrefixOf needle.toList (haystack.toList.drop i)

/-- Embeds `DOMAIN_KEYWORDS` from `src/config/settings.py`, in declaration order. -/
def DOMAIN_KEYWORDS : List (String × List String) := [
  ("finance", [
    "financial", "banking", "investment", "stock", "bond", "portfolio",
    "accounting", "audit", "revenue", "profit", "loss", "balance sheet",
    "income statement", "cash flow", "equity", "asset", "liability",
    "fiscal", "monetary", "securities", "derivatives", "hedge fund"]),
  ("law", [
    "legal", "court", "judge", "attorney", "lawsuit", "plaintiff",
    "defendant", "verdict", "statute", "regulation", "compliance",
    "contract", "agreement", "litigation", "jurisdiction", "appeal",
    "prosecution", "defense", "testimony", "evidence", "judicial"]),
  ("science", [
    "research", "experiment", "hypothesis", "theory", "methodology",
    "analysis", "data", "results", "conclusion", "abstract", "publication",
    "peer review", "scientific", "laboratory", "variable", "control",
    "observation", "phenomenon", "empirical", "quantitative"]),
  ("technology", [
    "software", "hardware", "algorithm", "programming", "code",
    "system", "application", "platform", "network", "database",
    "cloud", "artificial intelligence", "machine learning", "cybersecurity",
    "blockchain", "api", "framework", "architecture", "deployment"]),
  ("healthcare", [
    "medical", "patient", "diagnosis", "treatment", "clinical",
    "hospital", "physician", "nurse", "therapy", "medication",
    "disease", "symptom", "health", "care", "surgical", "pharmaceutical",
    "radiology", "pathology", "anatomy", "physiology"]),
  ("education", [
    "teaching", "learning", "student", "curriculum", "course",
    "pedagogy", "instruction", "assessment", "academic", "university",
    "school", "education", "training", "classroom", "textbook",
    "syllabus", "enrollment", "degree", "diploma", "scholarship"]),
  ("business", [
    "management", "strategy", "marketing", "sales", "customer",
    "product", "service", "business plan", "entrepreneurship", "startup",
    "operations", "supply chain", "vendor", "procurement", "logistics",
    "human resources", "employee", "organizational", "corporate"]),
  ("engineering", [
    "design", "construction", "structural", "mechanical", "electrical",
    "civil", "chemical", "aerospace", "manufacturing", "CAD",
    "blueprint", "specifications", "materials", "testing", "prototype",
    "maintenance", "installation", "inspection", "quality control"]),
  ("arts", [
    "creative", "artistic", "design", "visual", "performance",
    "music", "theater", "literature", "painting", "sculpture",
    "photography", "film", "media", "aesthetic", "exhibition",
    "gallery", "composition", "choreography", "narrative"])]

/-- Per-domain score of `_keyword_based_classification`
(`src/agents/text_classification.py` line 125):
`sum(1 for keyword in keywords if keyword.lower() in text_lower)`,
i.e. each keyword contributes 1 if it is present, regardless of how
many times it occurs. -/
def domainScore (textLower : String) (kws : List String) : Nat :=
  kws.countP fun kw => isSubstringOf (lowerStr kw) textLower

/-- The score the spec describes: the sum over the keyword list of the
number of occurrences of each entry. Stated only for comparison with
`domainScore`. -/
def specOccurrenceScore (textLower : String) (kws : List String) : Nat :=
  (kws.map fun kw => countOccurrencesOf (lowerStr kw) textLower).sum

/-- Embeds `domain_scores.items()` in declaration order, tagged with the
declaration index (used to express the stability of Python's sort). -/
def scoredDomains (textLower : String) : List (Nat × String × Nat) :=
  DOMAIN_KEYWORDS.enum.map fun p => (p.1, p.2.1, domainScore textLower p.2.2)

/-- The comparison realizing Python's stable
`sorted(domain_scores.items(), key=lambda x: x[1], reverse=True)`:
score descending, with the declaration index breaking ties (a stable
sort keyed on the score is exactly a sort keyed on
(score descending, original position ascending)). -/
def pyStableDescR (a b : Nat × String × Nat) : Prop :=
  b.2.2 < a.2.2 ∨ (a.2.2 = b.2.2 ∧ a.1 ≤ b.1)

instance : DecidableRel pyStableDescR := fun a b => by
  unfold pyStableDescR
  exact inferInstance

instance : IsTotal (Nat × String × Nat) pyStableDescR :=
  ⟨by intro a b; unfold pyStableDescR; omega⟩

instance : IsTrans (Nat × String × Nat) pyStableDescR :=
  ⟨by intro a b c; unfold pyStableDescR; omega⟩

/-- Embeds `sorted_domains` of `_keyword_based_classification` line 129
(Python's `sorted` is stable, which the index component of
`pyStableDescR` realizes, so any sorting algorithm yields the same,
uniquely determined list). -/
def sortedDomains (textLower : String) : List (Nat × String × Nat) :=
  (scoredDomains textLower).insertionSort pyStableDescR

/-- Python `self.domain_keywords[domain]` (dict lookup by domain name). -/
def lookupKeywords (d : String) : List String :=
  match DOMAIN_KEYWORDS.find? (fun p => p.1 == d) with
  | some p => p.2
  | none => []

/-- Text classification result record (`src/agents/text_classification.py`). -/
structure TextResult where
  primary_domain : String
  confidence : ℚ
  reasoning : String
  keywords : List String
  alternative_domains : List String
  method : String

/-- The record returned when no keyword matches (lines 131-140). -/
def noMatchResult : TextResult :=
  { primary_domain := "general"
    confidence := 3/10
    reasoning := "No domain-specific keywords found"
    keywords := []
    alternative_domains := []
    method := "keyword_fallback" }

/-- Embeds `TextClassificationAgent._keyword_based_classification`
(`src/agents/text_classification.py` lines 118-163). -/
def keywordBasedClassification (text : String) : TextResult :=
  let textLower := lowerStr text
  match sortedDomains textLower with
  | [] => noMatchResult
  | top :: rest =>
    if top.2.2 = 0 then noMatchResult
    else
      let totalScore := top.2.2 + (rest.map fun p => p.2.2).sum
      let conf0 : ℚ := if 0 < totalScore then (top.2.2 : ℚ) / (totalScore : ℚ) else 3/10
      let conf := min conf0 (17/20)
      let matched := (lookupKeywords top.2.1).filter fun kw =>
        isSubstringOf (lowerStr kw) textLower
      { primary_domain := top.2.1
        confidence := conf
        reasoning := "Found " ++ toString top.2.2 ++ " domain-specific keywords"
        keywords := matched.take 10
        alternative_domains := (rest.take 2).map fun p => p.2.1
        method := "keyword_fallback" }

/-- Parsed reply of the text LLM backend (a JSON dict in Python, so every
field may be absent; `.get` defaults are applied by `llmClassification`). -/
structure LLMReply where
  primary_domain : Option String
  confidence : Option ℚ
  reasoning : Option String
  keywords : Option (List String)
  alternative_domains : Option (List String)

/-- Post-processing of `TextClassificationAgent._llm_classification`
(`src/agents/text_classification.py` lines 106-113): the parsed backend
reply is passed through with `.get` defaults and `method = "llm"`.
No clamping is applied to the confidence. -/
def llmClassification (r : LLMReply) : TextResult :=
  { primary_domain := r.primary_domain.getD "general"
    confidence := r.confidence.getD (1/2)
    reasoning := r.reasoning.getD ""
    keywords := r.keywords.getD []
    alternative_domains := r.alternative_domains.getD []
    method := "llm" }

/-- Python `str.strip()`: remove leading and trailing whitespace. -/
def pyStrip (s : String) : String :=
  String.mk (((s.toList.dropWhile Char.isWhitespace).reverse.dropWhile
    Char.isWhitespace).reverse)

/-- Embeds `TextClassificationAgent.process` (lines 59-90).  The external LLM
call is an oracle: `Except.ok r` is a successfully parsed reply,
`Except.error e` an exception raised anywhere in the primary path. -/
def textProcess (text : String) (oracle : Except String LLMReply) : TextResult :=
  if text.isEmpty ∨ (pyStrip text).length < 50 then keywordBasedClassification text
  else
    match oracle with
    | Except.ok r => llmClassification r
    | Except.error _ => keywordBasedClassification text

/-! ## Vision analysis (`src/agents/vision_analysis.py`) -/

/-- Vision analysis result record. -/
structure VisionResult where
  visual_domain_hints : List String
  document_type : String
  has_tables : Bool
  has_charts : Bool
  layout_type : String
  confidence : ℚ
  raw_analysis : Option String
  error : Option String

/-- Embeds `domains_map` of `_parse_vision_response` (lines 129-138), in
declaration order. -/
def visionDomainsMap : List (String × List String) := [
  ("finance", ["financial", "banking", "investment", "stock", "revenue", "accounting"]),
  ("law", ["legal", "court", "contract", "attorney", "lawsuit", "statute"]),
  ("science", ["research", "experiment", "hypothesis", "scientific", "study"]),
  ("technology", ["software", "code", "algorithm", "system", "technical", "api"]),
  ("healthcare", ["medical", "patient", "clinical", "diagnosis", "health", "pharmaceutical"]),
  ("education", ["academic", "university", "course", "student", "curriculum"]),
  ("business", ["business", "management", "strategy", "corporate", "marketing"]),
  ("engineering", ["engineering", "design", "construction", "structural", "mechanical"])]

/-- Embeds `doc_types` of `_extract_document_type` (lines 171-179). -/
def visionDocTypes : List (String × List String) := [
  ("report", ["report", "annual report", "quarterly report"]),
  ("contract", ["contract", "agreement"]),
  ("research_paper", ["research paper", "academic paper", "journal article"]),
  ("presentation", ["presentation", "slides", "powerpoint"]),
  ("invoice", ["invoice", "bill", "receipt"]),
  ("manual", ["manual", "guide", "handbook"]),
  ("specification", ["specification", "spec sheet", "datasheet"])]

/-- Embeds `VisionAnalysisAgent._extract_document_type` (lines 169-185):
first matching entry of the fixed ordered table, default `"document"`. -/
def extractDocumentType (textLower : String) : String :=
  match visionDocTypes.find? (fun p => p.2.any fun kw => isSubstringOf kw textLower) with
  | some p => p.1
  | none => "document"

/-- The domains whose trigger-word lists hit the (lower-cased) response,
in the fixed enumeration order of `domains_map` (lines 140-142). -/
def visionHitDomains (responseLower : String) : List String :=
  (visionDomainsMap.filter fun p => p.2.any fun kw => isSubstringOf kw responseLower).map
    fun p => p.1

/-- Embeds `VisionAnalysisAgent._parse_vision_response` (lines 122-167). -/
def parseVisionResponse (response : String) : VisionResult :=
  let rl := lowerStr response
  let domainHints := visionHitDomains rl
  let tables := ["table", "tabular", "grid"].any fun w => isSubstringOf w rl
  let charts := ["chart", "graph", "diagram", "visualization"].any fun w => isSubstringOf w rl
  let layout :=
    if tables || charts then "visual-heavy"
    else if isSubstringOf "text" rl && isSubstringOf "heavy" rl then "text-heavy"
    else "mixed"
  { visual_domain_hints := domainHints.take 3
    document_type := extractDocumentType rl
    has_tables := tables
    has_charts := charts
    layout_type := layout
    confidence := min ((domainHints.length : ℚ) * (1/4)) 1
    raw_analysis := some (response.take 500)
    error := none }

/-- The zero-confidence placeholder returned for an empty preview-image
sequence (`VisionAnalysisAgent.process` lines 46-55). -/
def emptyImagesResult : VisionResult :=
  { visual_domain_hints := []
    document_type := "unknown"
    has_tables := false
    has_charts := false
    layout_type := "unknown"
    confidence := 0
    raw_analysis := none
    error := none }

/-- The degraded record produced when the external vision call raises
(`_analyze_image` lines 110-120). -/
def visionErrorResult (e : String) : VisionResult :=
  { visual_domain_hints := []
    document_type := "unknown"
    has_tables := false
    has_charts := false
    layout_type := "text-heavy"
    confidence := 0
    raw_analysis := none
    error := some e }

/-- Embeds `VisionAnalysisAgent.process` (lines 29-60).  The external call is an
oracle producing either the backend's raw response text or an exception. -/
def visionProcess (previewImages : List String) (oracle : Except String String) :
    VisionResult :=
  if previewImages.isEmpty then emptyImagesResult
  else
    match oracle with
    | Except.ok resp => parseVisionResponse resp
    | Except.error e => visionErrorResult e

/-! ## Domain router (`src/agents/domain_router.py`) -/

/-- Decision record of the reconciler; fields the decision policy sets
(the free-text `reasoning` and `primary_evidence` strings are not
modelled, none of the verified properties concern them). -/
structure Decision where
  final_domain : String
  confidence : ℚ
  agreement_level : String
  method : String

/-- Embeds `DomainRouterAgent._fallback_decision` (lines 147-175). -/
def fallbackDecision (visionHints : List String) (visionConf : ℚ)
    (textDomain : String) (textConf : ℚ) : Decision :=
  if textConf > 3/5 then
    { final_domain := textDomain
      confidence := textConf * (4/5)
      agreement_level := if textDomain ∈ visionHints then "medium" else "low"
      method := "fallback_weighted" }
  else
    match visionHints with
    | h :: _ =>
      { final_domain := h
        confidence := visionConf * (7/10)
        agreement_level := "low"
        method := "fallback_weighted" }
    | [] =>
      { final_domain := "general"
        confidence := 2/5
        agreement_level := "none"
        method := "fallback_weighted" }

/-- Embeds `DomainRouterAgent.process` (lines 81-145) after extracting the
fields it reads from the two analysis records.  The LLM arbitration call
is an oracle: `some d` is a successfully parsed arbiter decision (whose
`method` the code overwrites with `"llm_decision"`), `none` an exception,
which falls through to `_fallback_decision`. -/
def routerProcess (arbiter : Option Decision) (visionHints : List String)
    (visionConf : ℚ) (textDomain : String) (textConf : ℚ) : Decision :=
  if textDomain ∈ visionHints ∧ textConf > 7/10 then
    { final_domain := textDomain
      confidence := (textConf + visionConf) / 2
      agreement_level := "high"
      method := "quick_agreement" }
  else
    match arbiter with
    | some d => { d with method := "llm_decision" }
    | none => fallbackDecision visionHints visionConf textDomain textConf

/-- The 10 declared domain tags (the 9 catalog domains plus `general`). -/
def declaredDomains : List String :=
  ["finance", "law", "science", "technology", "healthcare",
   "education", "business", "engineering", "arts", "general"]

/-! ## Base agent envelope (`src/agents/base.py`) -/

/-- The envelope `BaseAgent.execute` returns (lines 49-66).  `result` and
`error` are optional because the success and failure dicts carry exactly
one of the two keys. -/
structure AgentEnvelope (α : Type) where
  agent_name : String
  success : Bool
  result : Option α
  error : Option String
  execution_time : ℚ
  timestamp : String

/-- Embeds `BaseAgent.execute` (lines 37-66): the outcome of `process` (normal
return or raised exception) is wrapped into an envelope; the measured
time and timestamp are parameters of the embedding. -/
def executeAgent {α : Type} (name : String) (executionTime : ℚ) (timestamp : String)
    (outcome : Except String α) : AgentEnvelope α :=
  match outcome with
  | Except.ok r =>
    { agent_name := name
      success := true
      result := some r
      error := none
      execution_time := executionTime
      timestamp := timestamp }
  | Except.error e =>
    { agent_name := name
      success := false
      result := none
      error := some e
      execution_time := executionTime
      timestamp := timestamp }

/-! ## Workflow graph (`src/workflow/graph.py`)

The LangGraph engine executes the compiled graph in Pregel-style
supersteps: every node triggered by a node that ran in superstep `n`
runs (once) in superstep `n + 1`.  The node set and edge set are
embedded from `_build_graph` (lines 64-101); the engine's superstep
semantics is made explicit below. -/

/-- The six workflow nodes added in `_build_graph`. -/
inductive WFNode where
  | intake
  | visionAnalysis
  | textClassification
  | domainRouter
  | fileOrganization
  | errorHandler
deriving DecidableEq

/-- The edge relation of `_build_graph` (lines 81-99).  `intake` has the
two unconditional fan-out edges plus the conditional edge, which targets
`vision_analysis` on success and `error_handler` on error; both branch
nodes feed `domain_router`, which feeds `file_organization`, which feeds
`END`.  `intakeFailed` records which way `_check_intake_success` went. -/
def successors (intakeFailed : Bool) : WFNode → List WFNode
  | WFNode.intake =>
    if intakeFailed then
      [WFNode.visionAnalysis, WFNode.textClassification, WFNode.errorHandler]
    else
      [WFNode.visionAnalysis, WFNode.textClassification]
  | WFNode.visionAnalysis => [WFNode.domainRouter]
  | WFNode.textClassification => [WFNode.domainRouter]
  | WFNode.domainRouter => [WFNode.fileOrganization]
  | WFNode.fileOrganization => []
  | WFNode.errorHandler => []

/-- The set of nodes running in each superstep: the entry point alone in
superstep 0, then the (deduplicated) successors of the previous
superstep's nodes. -/
def activeNodes (intakeFailed : Bool) : Nat → List WFNode
  | 0 => [WFNode.intake]
  | n + 1 => ((activeNodes intakeFailed n).map (successors intakeFailed)).flatten.dedup

/-- The part of the channel state the AND-join property concerns:
whether the `vision_analysis` / `text_analysis` channels have been
written (they start at their initial empty values). -/
structure BranchState where
  visionDone : Bool
  textDone : Bool
deriving DecidableEq

/-- State effect of one node, restricted to the two analysis channels:
`_vision_node` (lines 134-166) returns a dict containing the key
`vision_analysis` on every path (success, degraded and exception), and
`_text_node` (lines 168-202) likewise always returns `text_analysis`;
no node ever clears these channels. -/
def nodeEffect : WFNode → BranchState → BranchState
  | WFNode.visionAnalysis, s => { s with visionDone := true }
  | WFNode.textClassification, s => { s with textDone := true }
  | _, s => s

/-- The analysis channels at the start of superstep `n` (both empty
initially, then updated by every node that ran). -/
def stateAt (intakeFailed : Bool) : Nat → BranchState
  | 0 => { visionDone := false, textDone := false }
  | n + 1 => (activeNodes intakeFailed n).foldl (fun s node => nodeEffect node s)
      (stateAt intakeFailed n)

/-! ## Pipeline result assembly (`src/workflow/graph.py` lines 297-326) -/

/-- The fields of the final graph state that `process_document` reads. -/
structure FinalState where
  processing_stage : String
  filename : String
  final_domain : String
  confidence : ℚ
  output_path : String
  error : String

/-- The dict `process_document` returns. `domain`, `confidence`,
`output_path` and `error` are optional because the two return paths
(lines 311-319 and 322-326) carry different key sets; in particular the
non-exception path has no `error` key at all. -/
structure PipelineResult where
  success : Bool
  filename : String
  domain : Option String
  confidence : Option ℚ
  output_path : Option String
  error : Option String

/-- Embeds `DocumentClassificationWorkflow.process_document` (lines 297-326)
after the workflow invocation: `Except.ok s` is the final state returned
by `app.ainvoke`, `Except.error e` an exception escaping the invocation.
`filename` is the display name computed from the path at entry. -/
def processDocumentResult (filename : String) (outcome : Except String FinalState) :
    PipelineResult :=
  match outcome with
  | Except.ok s =>
    { success := s.processing_stage == "completed"
      filename := s.filename
      domain := some s.final_domain
      confidence := some s.confidence
      output_path := some s.output_path
      error := none }
  | Except.error e =>
    { success := false
      filename := filename
      domain := none
      confidence := none
      output_path := none
      error := some e }

/-! ## Theorems -/

/-- C1: whenever the text classifier's primary domain is a member of the
vision domain-hint list and the text confidence is strictly greater than
0.7, the reconciler returns final_domain = text domain, final_confidence
= the average of text and vision confidence, agreement_level "high" and
method "quick_agreement"; the result is the same for every arbiter
oracle, i.e. the arbiter is not consulted. -/
theorem quick_agreement_shortcircuits (arbiter : Option Decision)
    (visionHints : List String) (visionConf : ℚ) (textDomain : String) (textConf : ℚ)
    (hmem : textDomain ∈ visionHints) (hconf : textConf > 7/10) :
    routerProcess arbiter visionHints visionConf textDomain textConf =
      { final_domain := textDomain
        confidence := (textConf + visionConf) / 2
        agreement_level := "high"
        method := "quick_agreement" } := by
  unfold routerProcess
  rw [if_pos ⟨hmem, hconf⟩]

/-- Witness for C1, at the spec's own example: vision hints
["finance", "law"], text result finance at confidence 0.85. -/
theorem quick_agreement_shortcircuits_witness :
    ("finance" ∈ ["finance", "law"] ∧ (17/20 : ℚ) > 7/10) ∧
    routerProcess none ["finance", "law"] (1/2) "finance" (17/20) =
      { final_domain := "finance"
        confidence := ((17/20 : ℚ) + 1/2) / 2
        agreement_level := "high"
        method := "quick_agreement" } :=
  ⟨⟨by decide, by norm_num⟩,
    quick_agreement_shortcircuits none ["finance", "law"] (1/2) "finance" (17/20)
      (by decide) (by norm_num)⟩

/-- C2: the deterministic fallback of the reconciler: text confidence
above 0.6 keeps the text domain at 0.8 discount with agreement "medium"
iff the text domain is among the vision hints; otherwise a non-empty
hint list elects its first element at 0.7 of the vision confidence with
agreement "low"; otherwise "general" at confidence 0.4 with agreement
"none"; always with method "fallback_weighted". -/
theorem fallback_decision_spec (visionHints : List String) (visionConf : ℚ)
    (textDomain : String) (textConf : ℚ) :
    (textConf > 3/5 →
      fallbackDecision visionHints visionConf textDomain textConf =
        { final_domain := textDomain
          confidence := textConf * (4/5)
          agreement_level := if textDomain ∈ visionHints then "medium" else "low"
          method := "fallback_weighted" }) ∧
    (¬ textConf > 3/5 → ∀ h rest, visionHints = h :: rest →
      fallbackDecision visionHints visionConf textDomain textConf =
        { final_domain := h
          confidence := visionConf * (7/10)
          agreement_level := "low"
          method := "fallback_weighted" }) ∧
    (¬ textConf > 3/5 → visionHints = [] →
      fallbackDecision visionHints visionConf textDomain textConf =
        { final_domain := "general"
          confidence := 2/5
          agreement_level := "none"
          method := "fallback_weighted" }) := by
  refine ⟨?_, ?_, ?_⟩
  · intro ht
    unfold fallbackDecision
    rw [if_pos ht]
  · intro ht h rest hv
    subst hv
    unfold fallbackDecision
    rw [if_neg ht]
  · intro ht hv
    subst hv
    unfold fallbackDecision
    rw [if_neg ht]

/-- Witness for C2, exercising the high-text-confidence branch. -/
theorem fallback_decision_spec_witness :
    ((17/20 : ℚ) > 3/5) ∧
    fallbackDecision ["law"] (1/2) "finance" (17/20) =
      { final_domain := "finance"
        confidence := (17/20 : ℚ) * (4/5)
        agreement_level := if "finance" ∈ ["law"] then "medium" else "low"
        method := "fallback_weighted" } :=
  ⟨by norm_num, (fallback_decision_spec ["law"] (1/2) "finance" (17/20)).1 (by norm_num)⟩

/-- C10: BaseAgent.execute is total over the outcome of process and
returns the success envelope on normal completion and the error
envelope when process raises, each carrying the agent name, execution
time and timestamp. -/
theorem execute_envelope_spec {α : Type} (name : String) (t : ℚ) (ts : String)
    (outcome : Except String α) :
    (∀ r, outcome = Except.ok r →
      executeAgent name t ts outcome =
        { agent_name := name
          success := true
          result := some r
          error := none
          execution_time := t
          timestamp := ts }) ∧
    (∀ e, outcome = Except.error e →
      executeAgent name t ts outcome =
        { agent_name := name
          success := false
          result := none
          error := some e
          execution_time := t
          timestamp := ts }) := by
  constructor
  · rintro r rfl
    rfl
  · rintro e rfl
    rfl

/-- Witness for C10 at a concrete successful outcome. -/
theorem execute_envelope_spec_witness :
    executeAgent "TextClassificationAgent" 0 "t0" (Except.ok (0 : Nat)) =
      { agent_name := "TextClassificationAgent"
        success := true
        result := some 0
        error := none
        execution_time := 0
        timestamp := "t0" } :=
  (execute_envelope_spec "TextClassificationAgent" 0 "t0" (Except.ok 0)).1 0 rfl

/-- C8 (amended): the PipelineResult's success field is true iff the
workflow state reached processing_stage "completed"; but the result
carries an error string exactly when the workflow invocation itself
raised an exception — a stage-level fatal error (intake or filing
failure) leaves the error in the workflow state without copying it into
the result. -/
theorem pipeline_result_success_iff (filename : String)
    (outcome : Except String FinalState) :
    ((processDocumentResult filename outcome).success = true ↔
      ∃ s, outcome = Except.ok s ∧ s.processing_stage = "completed") ∧
    ((processDocumentResult filename outcome).error ≠ none ↔
      ∃ e, outcome = Except.error e) := by
  cases outcome with
  | ok s => constructor <;> simp [processDocumentResult]
  | error e => constructor <;> simp [processDocumentResult]

/-- Counterexample for C8 as stated: a final state recording a fatal
filing failure (processing_stage "organization_failed", error recorded
in the state) produces a PipelineResult with success false but no error
string at all — the claim says a Fatal condition comes with an error
string on the result. -/
def orgFailedState : FinalState :=
  { processing_stage := "organization_failed"
    filename := "doc.pdf"
    final_domain := "finance"
    confidence := 1/2
    output_path := ""
    error := "copy failed" }

/-- Counterexample theorem for C8. -/
theorem pipeline_result_drops_fatal_error :
    orgFailedState.processing_stage = "organization_failed" ∧
    orgFailedState.error = "copy failed" ∧
    (processDocumentResult "doc.pdf" (Except.ok orgFailedState)).success = false ∧
    (processDocumentResult "doc.pdf" (Except.ok orgFailedState)).error = none := by
  refine ⟨rfl, rfl, ?_, rfl⟩
  decide

/-- C6 (amended): the reconciler's final_domain lies in the closed
10-tag world provided every domain reaching it does: the text primary
domain, every vision hint, and (when arbitration succeeds) the arbiter's
domain.  The code performs no coercion of unrecognized tags, so the
closed-world property is conditional on the inputs, not unconditional. -/
theorem final_domain_closed_world (arbiter : Option Decision)
    (visionHints : List String) (visionConf textConf : ℚ) (textDomain : String)
    (ht : textDomain ∈ declaredDomains)
    (hh : ∀ h ∈ visionHints, h ∈ declaredDomains)
    (ha : ∀ d, arbiter = some d → d.final_domain ∈ declaredDomains) :
    (routerProcess arbiter visionHints visionConf textDomain textConf).final_domain ∈
      declaredDomains := by
  by_cases hq : textDomain ∈ visionHints ∧ textConf > 7/10
  · unfold routerProcess
    rw [if_pos hq]
    exact ht
  · unfold routerProcess
    rw [if_neg hq]
    cases arbiter with
    | some d => exact ha d rfl
    | none =>
      by_cases htc : textConf > 3/5
      · unfold fallbackDecision
        rw [if_pos htc]
        exact ht
      · unfold fallbackDecision
        rw [if_neg htc]
        cases visionHints with
        | nil => exact show ("general" : String) ∈ declaredDomains by decide
        | cons h rest => exact hh h (List.mem_cons_self h rest)

/-- Witness for C6 (amended), on the vision-hint fallback branch. -/
theorem final_domain_closed_world_witness :
    (routerProcess none ["finance"] (1/4) "law" (1/5)).final_domain ∈
      declaredDomains :=
  final_domain_closed_world none ["finance"] (1/4) (1/5) "law"
    (by decide) (by decide) (fun d h => nomatch h)

/-- Counterexample for C6 as stated: an unrecognized tag coming from the
text classifier is not coerced to "general" — it flows to final_domain
verbatim (here via the weighted fallback, vision hints empty, text
confidence 0.8). -/
theorem final_domain_not_coerced :
    (routerProcess none [] 0 "banana" (4/5)).final_domain = "banana" ∧
    "banana" ∉ declaredDomains := by
  constructor
  · have h1 : ¬ (("banana" : String) ∈ ([] : List String) ∧ (4/5 : ℚ) > 7/10) := by
      simp
    have h2 : (4/5 : ℚ) > 3/5 := by norm_num
    unfold routerProcess
    rw [if_neg h1]
    unfold fallbackDecision
    rw [if_pos h2]
  · decide

/-- After superstep 4 the workflow has reached END: no node is active. -/
theorem activeNodes_eventually_empty (intakeFailed : Bool) (m : Nat) :
    activeNodes intakeFailed (m + 4) = [] := by
  induction m with
  | zero => cases intakeFailed <;> rfl
  | succ k ih =>
    show ((activeNodes intakeFailed (k + 4)).map (successors intakeFailed)).flatten.dedup = []
    rw [ih]
    rfl

/-- C5: in every superstep execution of the workflow graph (for either
outcome of the intake conditional edge), whenever the domain_router node
is active, both the vision_analysis and the text_analysis channels have
already been written — the reconciler never runs while either classifier
output is still its initial empty value. -/
theorem and_join_before_router (intakeFailed : Bool) (n : Nat)
    (h : WFNode.domainRouter ∈ activeNodes intakeFailed n) :
    (stateAt intakeFailed n).visionDone = true ∧
    (stateAt intakeFailed n).textDone = true := by
  match n with
  | 0 => cases intakeFailed <;> exact absurd h (by decide)
  | 1 => cases intakeFailed <;> exact absurd h (by decide)
  | 2 => cases intakeFailed <;> exact ⟨rfl, rfl⟩
  | 3 => cases intakeFailed <;> exact absurd h (by decide)
  | (m + 4) =>
    rw [activeNodes_eventually_empty intakeFailed m] at h
    exact absurd h (List.not_mem_nil _)

/-- Witness for C5: in the successful-intake execution the router is
active in superstep 2 and both channels are written by then. -/
theorem and_join_before_router_witness :
    WFNode.domainRouter ∈ activeNodes false 2 ∧
    ((stateAt false 2).visionDone = true ∧ (stateAt false 2).textDone = true) :=
  ⟨by decide, and_join_before_router false 2 (by decide)⟩

/-- C9: with an empty preview-image sequence the vision stage returns
the zero-confidence placeholder for every oracle (so without consulting
the external backend); and for every response text the parsed record's
hint list is the first 3 domain hits, hence has at most 3 entries and
respects the fixed 8-domain enumeration order, and the confidence is
min(0.25 times the number of domain hits, 1). -/
theorem vision_result_spec :
    (∀ oracle, visionProcess [] oracle = emptyImagesResult) ∧
    (∀ response,
      (parseVisionResponse response).visual_domain_hints =
        (visionHitDomains (lowerStr response)).take 3 ∧
      (parseVisionResponse response).visual_domain_hints.length ≤ 3 ∧
      (parseVisionResponse response).visual_domain_hints.Sublist
        (visionDomainsMap.map fun p => p.1) ∧
      (parseVisionResponse response).confidence =
        min (((visionHitDomains (lowerStr response)).length : ℚ) * (1/4)) 1) := by
  constructor
  · intro oracle
    rfl
  · intro response
    have hhints : (parseVisionResponse response).visual_domain_hints =
        (visionHitDomains (lowerStr response)).take 3 := rfl
    refine ⟨rfl, ?_, ?_, rfl⟩
    · rw [hhints]
      exact List.length_take_le 3 _
    · rw [hhints]
      exact (List.take_sublist _ _).trans
        (List.Sublist.map _ (List.filter_sublist _))

/-- The declaration indices carried by the scored-domain list are the
positions 0..8, so they are pairwise distinct. -/
theorem scoredDomains_map_fst (textLower : String) :
    (scoredDomains textLower).map (fun p => p.1) =
      List.range DOMAIN_KEYWORDS.length := by
  unfold scoredDomains
  rw [List.map_map]
  exact List.enum_map_fst DOMAIN_KEYWORDS

/-- C3 (amended): for every input text, the ranked domain list is a
permutation of the declaration-order scored list; it is strictly ordered
by score descending with ties broken by declaration order; and each
domain's score is the number of that domain's keyword-list entries that
occur (case-insensitively, at least once) as substrings of the
lower-cased text — presence count, not occurrence count. -/
theorem keyword_ranking_spec (text : String) :
    ((sortedDomains (lowerStr text)).Perm (scoredDomains (lowerStr text))) ∧
    List.Pairwise (fun a b : Nat × String × Nat =>
      b.2.2 < a.2.2 ∨ (a.2.2 = b.2.2 ∧ a.1 < b.1)) (sortedDomains (lowerStr text)) ∧
    ((scoredDomains (lowerStr text)).map fun p => p.2.2) =
      (DOMAIN_KEYWORDS.map fun q =>
        q.2.countP fun kw => isSubstringOf (lowerStr kw) (lowerStr text)) := by
  refine ⟨List.perm_insertionSort _ _, ?_, ?_⟩
  · have hsorted : List.Pairwise pyStableDescR (sortedDomains (lowerStr text)) :=
      List.sorted_insertionSort pyStableDescR (scoredDomains (lowerStr text))
    have hnodup : ((sortedDomains (lowerStr text)).map (fun p => p.1)).Nodup := by
      unfold sortedDomains
      have hperm :=
        (List.perm_insertionSort pyStableDescR (scoredDomains (lowerStr text))).map
          (fun p => p.1)
      rw [hperm.nodup_iff, scoredDomains_map_fst]
      exact List.nodup_range _
    have hpne : List.Pairwise (fun a b : Nat × String × Nat => a.1 ≠ b.1)
        (sortedDomains (lowerStr text)) := List.pairwise_map.mp hnodup
    refine (hsorted.and hpne).imp ?_
    intro a b hab
    obtain ⟨h1, h2⟩ := hab
    unfold pyStableDescR at h1
    omega
  · unfold scoredDomains
    rw [List.map_map]
    have hcomp : ((fun p : Nat × String × Nat => p.2.2) ∘
        (fun p : Nat × (String × List String) =>
          (p.1, p.2.1, domainScore (lowerStr text) p.2.2))) =
        (fun q : String × List String => domainScore (lowerStr text) q.2) ∘ Prod.snd :=
      rfl
    rw [hcomp, ← List.map_map, List.enum_map_snd]
    rfl

/-- Counterexample for C3 as stated: on the text "patient patient" the
healthcare keyword "patient" occurs twice, so the claimed
occurrence-count score is 2, but the code's score (one per present
keyword) is 1. -/
theorem keyword_score_is_presence_count :
    domainScore (lowerStr "patient patient") (lookupKeywords "healthcare") = 1 ∧
    specOccurrenceScore (lowerStr "patient patient") (lookupKeywords "healthcare") = 2 := by
  constructor <;> decide

/-- Shape of the keyword classifier's result when the top score is
non-zero, in terms of the head and tail of the ranked domain list. -/
theorem keywordBasedClassification_eq (text : String) (top : Nat × String × Nat)
    (rest : List (Nat × String × Nat))
    (hsort : sortedDomains (lowerStr text) = top :: rest) (hne : top.2.2 ≠ 0) :
    keywordBasedClassification text =
      { primary_domain := top.2.1
        confidence := min ((top.2.2 : ℚ) /
          ((top.2.2 + (rest.map fun p => p.2.2).sum : Nat) : ℚ)) (17/20)
        reasoning := "Found " ++ toString top.2.2 ++ " domain-specific keywords"
        keywords := ((lookupKeywords top.2.1).filter fun kw =>
          isSubstringOf (lowerStr kw) (lowerStr text)).take 10
        alternative_domains := (rest.take 2).map fun p => p.2.1
        method := "keyword_fallback" } := by
  have hpos : 0 < top.2.2 + (rest.map fun p => p.2.2).sum :=
    Nat.lt_of_lt_of_le (Nat.pos_of_ne_zero hne) (Nat.le_add_right _ _)
  simp only [keywordBasedClassification]
  rw [hsort]
  simp [hne, hpos]

/-- C4: the keyword fallback returns the fixed no-match record when the
top score is 0; otherwise the top-ranked domain, confidence
min(top score / sum of all 9 scores, 0.85), the 2nd- and 3rd-ranked
domains as alternatives, and the first 10 keywords of the winning
domain's list occurring in the text, in declared order. -/
theorem keyword_fallback_result_spec (text : String) :
    ∀ top rest, sortedDomains (lowerStr text) = top :: rest →
      (top.2.2 = 0 → keywordBasedClassification text = noMatchResult) ∧
      (top.2.2 ≠ 0 →
        (keywordBasedClassification text).primary_domain = top.2.1 ∧
        (keywordBasedClassification text).confidence =
          min ((top.2.2 : ℚ) /
            ((((scoredDomains (lowerStr text)).map fun p => p.2.2).sum : Nat) : ℚ))
            (17/20) ∧
        (keywordBasedClassification text).alternative_domains =
          (rest.take 2).map (fun p => p.2.1) ∧
        (keywordBasedClassification text).keywords =
          ((lookupKeywords top.2.1).filter fun kw =>
            isSubstringOf (lowerStr kw) (lowerStr text)).take 10 ∧
        (keywordBasedClassification text).method = "keyword_fallback") := by
  intro top rest hsort
  constructor
  · intro h0
    simp only [keywordBasedClassification]
    rw [hsort]
    simp [h0]
  · intro hne
    have hsum : top.2.2 + (rest.map fun p => p.2.2).sum =
        ((scoredDomains (lowerStr text)).map fun p => p.2.2).sum := by
      have hperm : ((sortedDomains (lowerStr text)).map fun p => p.2.2).Perm
          ((scoredDomains (lowerStr text)).map fun p => p.2.2) :=
        (List.perm_insertionSort _ _).map _
      rw [hsort] at hperm
      have hs := hperm.sum_eq
      simpa using hs
    rw [keywordBasedClassification_eq text top rest hsort hne]
    refine ⟨rfl, ?_, rfl, rfl, rfl⟩
    rw [hsum]

/-- Witness for C4, at the text "patient" (healthcare wins with one
matched keyword; finance and law are the runners-up by declaration
order). -/
theorem keyword_fallback_result_spec_witness :
    (keywordBasedClassification "patient").primary_domain = "healthcare" ∧
    (keywordBasedClassification "patient").alternative_domains = ["finance", "law"] ∧
    (keywordBasedClassification "patient").keywords = ["patient"] ∧
    (keywordBasedClassification "patient").method = "keyword_fallback" := by
  have h := (keyword_fallback_result_spec "patient" (4, "healthcare", 1)
    [(0, "finance", 0), (1, "law", 0), (2, "science", 0), (3, "technology", 0),
     (5, "education", 0), (6, "business", 0), (7, "engineering", 0), (8, "arts", 0)]
    (by decide)).2 (by decide)
  obtain ⟨h1, h2, h3, h4, h5⟩ := h
  refine ⟨h1, ?_, ?_, h5⟩
  · rw [h3]
    decide
  · rw [h4]
    decide

/-- The parsed vision record's confidence lies in the unit interval. -/
theorem parseVision_confidence_bounds (response : String) :
    0 ≤ (parseVisionResponse response).confidence ∧
    (parseVisionResponse response).confidence ≤ 1 := by
  have hconf : (parseVisionResponse response).confidence =
      min (((visionHitDomains (lowerStr response)).length : ℚ) * (1/4)) 1 := rfl
  rw [hconf]
  constructor
  · refine le_min ?_ ?_ <;> positivity
  · exact min_le_right _ _

/-- The vision stage's confidence lies in the unit interval for every
input and oracle. -/
theorem visionProcess_confidence_bounds (images : List String)
    (oracle : Except String String) :
    0 ≤ (visionProcess images oracle).confidence ∧
    (visionProcess images oracle).confidence ≤ 1 := by
  unfold visionProcess
  split
  · exact ⟨le_refl 0, show (0:ℚ) ≤ 1 by norm_num⟩
  · cases oracle with
    | ok resp => exact parseVision_confidence_bounds resp
    | error e => exact ⟨le_refl 0, show (0:ℚ) ≤ 1 by norm_num⟩

/-- The keyword fallback's confidence lies in the unit interval. -/
theorem keyword_confidence_bounds (text : String) :
    0 ≤ (keywordBasedClassification text).confidence ∧
    (keywordBasedClassification text).confidence ≤ 1 := by
  rcases hs : sortedDomains (lowerStr text) with _ | ⟨top, rest⟩
  · simp only [keywordBasedClassification]
    rw [hs]
    exact ⟨show (0:ℚ) ≤ 3/10 by norm_num, show (3/10:ℚ) ≤ 1 by norm_num⟩
  · by_cases h0 : top.2.2 = 0
    · simp only [keywordBasedClassification]
      rw [hs]
      simp only [h0, if_pos]
      exact ⟨show (0:ℚ) ≤ 3/10 by norm_num, show (3/10:ℚ) ≤ 1 by norm_num⟩
    · rw [keywordBasedClassification_eq text top rest hs h0]
      constructor
      · refine le_min (div_nonneg ?_ ?_) (by norm_num) <;> positivity
      · exact le_trans (min_le_right _ _) (by norm_num)

/-- The deterministic reconciler paths (quick agreement and weighted
fallback) keep the confidence in the unit interval when the incoming
confidences are in it. -/
theorem router_confidence_bounds (visionHints : List String) (visionConf : ℚ)
    (textDomain : String) (textConf : ℚ)
    (hv0 : 0 ≤ visionConf) (hv1 : visionConf ≤ 1)
    (ht0 : 0 ≤ textConf) (ht1 : textConf ≤ 1) :
    0 ≤ (routerProcess none visionHints visionConf textDomain textConf).confidence ∧
    (routerProcess none visionHints visionConf textDomain textConf).confidence ≤ 1 := by
  unfold routerProcess
  by_cases hq : textDomain ∈ visionHints ∧ textConf > 7/10
  · rw [if_pos hq]
    exact ⟨show 0 ≤ (textConf + visionConf) / 2 by linarith,
           show (textConf + visionConf) / 2 ≤ 1 by linarith⟩
  · rw [if_neg hq]
    unfold fallbackDecision
    by_cases htc : textConf > 3/5
    · rw [if_pos htc]
      refine ⟨show 0 ≤ textConf * (4/5) from mul_nonneg ht0 (by norm_num), ?_⟩
      show textConf * (4/5) ≤ 1
      have hm := mul_le_mul_of_nonneg_right ht1 (show (0:ℚ) ≤ 4/5 by norm_num)
      linarith
    · rw [if_neg htc]
      cases visionHints with
      | nil =>
        exact ⟨show (0:ℚ) ≤ 2/5 by norm_num, show (2/5 : ℚ) ≤ 1 by norm_num⟩
      | cons h rest =>
        refine ⟨show 0 ≤ visionConf * (7/10) from mul_nonneg hv0 (by norm_num), ?_⟩
        show visionConf * (7/10) ≤ 1
        have hm := mul_le_mul_of_nonneg_right hv1 (show (0:ℚ) ≤ 7/10 by norm_num)
        linarith

/-- C7 (amended): every deterministically computed confidence — the
vision parse, the vision stage for any oracle, the keyword fallback, and
the reconciler's quick-agreement/weighted-fallback paths fed in-range
inputs — lies in [0, 1].  (The LLM-supplied confidences are passed
through unclamped; see the counterexample.) -/
theorem confidence_bounds_spec :
    (∀ response, 0 ≤ (parseVisionResponse response).confidence ∧
      (parseVisionResponse response).confidence ≤ 1) ∧
    (∀ images oracle, 0 ≤ (visionProcess images oracle).confidence ∧
      (visionProcess images oracle).confidence ≤ 1) ∧
    (∀ text, 0 ≤ (keywordBasedClassification text).confidence ∧
      (keywordBasedClassification text).confidence ≤ 1) ∧
    (∀ visionHints (visionConf : ℚ) textDomain (textConf : ℚ),
      0 ≤ visionConf → visionConf ≤ 1 → 0 ≤ textConf → textConf ≤ 1 →
      0 ≤ (routerProcess none visionHints visionConf textDomain textConf).confidence ∧
      (routerProcess none visionHints visionConf textDomain textConf).confidence ≤ 1) :=
  ⟨parseVision_confidence_bounds, visionProcess_confidence_bounds,
    keyword_confidence_bounds, router_confidence_bounds⟩

/-- Witness for C7 (amended) on the reconciler conjunct. -/
theorem confidence_bounds_spec_witness :
    0 ≤ (routerProcess none [] (1/2) "general" (1/2)).confidence ∧
    (routerProcess none [] (1/2) "general" (1/2)).confidence ≤ 1 :=
  confidence_bounds_spec.2.2.2 [] (1/2) "general" (1/2)
    (by norm_num) (by norm_num) (by norm_num) (by norm_num)

/-- An LLM reply carrying an out-of-range confidence, used to refute the
unconditional clamping claim. -/
def overconfidentReply : LLMReply :=
  { primary_domain := some "finance"
    confidence := some (3/2)
    reasoning := some ""
    keywords := some []
    alternative_domains := some [] }

/-- Counterexample for C7 as stated: the text stage propagates an
LLM-returned confidence of 1.5 unclamped into its output record, so not
every stage-output confidence lies in [0, 1]. -/
theorem confidence_not_clamped :
    (textProcess "patientpatientpatientpatientpatientpatientpatientpatient"
      (Except.ok overconfidentReply)).confidence = 3/2 ∧
    ¬ ((textProcess "patientpatientpatientpatientpatientpatientpatientpatient"
      (Except.ok overconfidentReply)).confidence ≤ 1) := by
  have heq : textProcess "patientpatientpatientpatientpatientpatientpatientpatient"
      (Except.ok overconfidentReply) = llmClassification overconfidentReply := by
    unfold textProcess
    rw [if_neg (by decide)]
  rw [heq]
  constructor
  · rfl
  · rw [show (llmClassification overconfidentReply).confidence = 3/2 from rfl]
    norm_num

end DocumentClassifier
